import Mathlib

/-!
Verification of the dual-mode invocation and batch-job-capture mechanism of
the LOLZTEAM client library, shallowly embedded from
`Package/LOLZTEAM/Client/Base/Wrappers.py` and
`Package/LOLZTEAM/Client/Antipublic.py`.
-/

set_option autoImplicit false

/-- Python values as they appear in request parameter dictionaries.
`NONE` is the distinguished unset sentinel imported from `Core` as `_NONE`. -/
inductive Value where
  | NONE
  | vStr (s : String)
  | vBool (b : Bool)
  | vInt (n : Int)
  | vList (xs : List Value)
  | vDict (m : List (String × Value))

/-- Test whether a value is the unset sentinel. -/
def Value.isNONE : Value → Bool
  | .NONE => true
  | _ => false

/-- Python truthiness, used by `if plain:` in the `lines` body. -/
def Value.truthy : Value → Bool
  | .NONE => false
  | .vStr s => !s.isEmpty
  | .vBool b => b
  | .vInt n => n != 0
  | .vList xs => !xs.isEmpty
  | .vDict m => !m.isEmpty

/-- A Python dictionary: association list in insertion order. -/
abbrev Dict := List (String × Value)

/-- Lookup of a key: the binding of the first entry carrying it, as `dict.get`. -/
def lookupD : Dict → String → Option Value
  | [], _ => none
  | (k', v) :: rest, k => if k' = k then some v else lookupD rest k

/-- Keys of a dictionary, in order. -/
def keysD (d : Dict) : List String := d.map Prod.fst

/-- A dictionary is well formed when no key occurs twice (Python dictionaries
always satisfy this). -/
def NodupKeys (d : Dict) : Prop := (keysD d).Nodup

/-- Writing one key, as Python assignment inside `dict.update`: an existing
entry is overwritten in place, a new key is appended at the end. -/
def setKey (d : Dict) (k : String) (v : Value) : Dict :=
  if d.any (fun p => p.1 = k) then
    d.map (fun p => if p.1 = k then (k, v) else p)
  else
    d ++ [(k, v)]

/-- Python `d.update(e)`: every entry of `e` is written into `d` in order. -/
def Dict.update (d e : Dict) : Dict := e.foldl (fun acc p => setKey acc p.1 p.2) d

/-- Modelled from the spec: `_NONE.TrimNONE` lives in `Base/Core.py`, which is
not part of the sources; per the spec it removes the entries whose value is the
unset sentinel before a mapping is merged into a wire payload. -/
def TrimNONE (d : Dict) : Dict := d.filter (fun p => !p.2.isNONE)

/-- One step of the unset-stripping merge used to build Job Descriptor
parameters: strip both sides, then write the second over the first. -/
def stripMerge (a b : Dict) : Dict := Dict.update (TrimNONE a) (TrimNONE b)

/-- The three-group parameter merge of `job` and `job_on_request`:
query parameters, then form data, then JSON body, later groups overwriting
earlier ones, each group stripped of unset entries first. -/
def mergeGroups (p d j : Dict) : Dict := Dict.update (stripMerge p d) (TrimNONE j)

/-- One transport invocation: `request(method, endpoint, **kwargs)` where the
keyword groups are `params`, `data` and `json` (absent field = not passed). -/
structure Request where
  method : String
  endpoint : String
  params : Option Dict := none
  data : Option Dict := none
  json : Option Dict := none

/-- Result of a transport call: the recording stub returns Python `None`;
the real transport returns a response for the handled request. -/
inductive Resp where
  | rNone
  | rReal (r : Request)

/-- Exceptions are modelled by their Python class name. -/
abbrev Err := String

/-- What the `request` attribute of the head instance currently refers to:
the real transport or a `RequestCapture` recording stub. -/
inductive TransportRef where
  | real
  | capture

/-- Mutable state of the head client instance: its `request` attribute, the
capture slot of the current `RequestCapture` object (`captured`, initially
Python `None`), and the log of calls that actually reached the network. -/
structure HeadState where
  request : TransportRef
  slot : Option Request
  netCalls : List Request

/-- Stateful, fallible computations over the head instance. -/
abbrev M (α : Type) := HeadState → Except Err α × HeadState

/-- Calling `head.request r`: the real transport performs network I/O and
yields a response; the capture stub stores `r` in its slot and returns
Python `None` without any network I/O. -/
def callTransport (r : Request) : M Resp := fun s =>
  match s.request with
  | .real => (.ok (.rReal r), { s with netCalls := s.netCalls ++ [r] })
  | .capture => (.ok .rNone, { s with slot := some r })

/-- A Python async endpoint body: declared keyword parameters (with optional
default values) and the body run on the dictionary of bound arguments. -/
structure PyFunc where
  params : List (String × Option Value)
  run : Dict → M Resp

/-- Binding of the declared parameters against the supplied keyword
arguments, in declaration order: a supplied argument wins, otherwise the
default applies, otherwise the call raises `TypeError` (missing argument). -/
def bindParams (kw : Dict) : List (String × Option Value) → Except Err Dict
  | [] => .ok []
  | (nm, dflt) :: rest =>
    match lookupD kw nm, dflt with
    | some v, _ => (bindParams kw rest).map (fun d => (nm, v) :: d)
    | none, some v => (bindParams kw rest).map (fun d => (nm, v) :: d)
    | none, none => .error "TypeError"

/-- Python keyword-call semantics: a keyword that matches no declared
parameter raises `TypeError` (unexpected keyword argument), otherwise the
body runs on the bound arguments. -/
def callPy (f : PyFunc) (kw : Dict) : M Resp := fun s =>
  if kw.any (fun p => !(f.params.any (fun q => q.1 = p.1))) then
    (.error "TypeError", s)
  else
    match bindParams kw f.params with
    | .error e => (.error e, s)
    | .ok bound => f.run bound s

/-- Bound argument access inside a body (always present after binding). -/
def getv (bound : Dict) (k : String) : Value := (lookupD bound k).getD Value.NONE

/-- Digit character of `d < 10`, as produced by decimal rendering. -/
def decChar (d : Nat) : Char := Char.ofNat (48 + d)

/-- Decimal digits of `n`, least significant first, with explicit fuel
(`fuel >= n` suffices). -/
def decDigits : Nat → Nat → List Nat
  | 0, _ => []
  | fuel + 1, n => if n = 0 then [] else (n % 10) :: decDigits fuel (n / 10)

/-- The decimal string of a natural number, modelling Python `str` on a
non-negative integer. -/
def pyStrNat (n : Nat) : String :=
  if n = 0 then "0" else String.mk (((decDigits n n).reverse).map decChar)

/-- Decimal decoding of a string, the left inverse of `pyStrNat`. -/
def strToNat (s : String) : Nat :=
  s.data.foldl (fun acc c => acc * 10 + (c.toNat - 48)) 0

/-- Python `str` applied to a value, as in the id field of a Job Descriptor.
Only the scalar renderings are ever exercised: a caller-supplied `job_id` is a
string or an integer, and the default is an integer draw. -/
def pyStr : Value → String
  | .vStr s => s
  | .vBool b => cond b "True" "False"
  | .vInt n => if n < 0 then "-" ++ pyStrNat n.natAbs else pyStrNat n.natAbs
  | .NONE => "NONE"
  | .vList _ => "[...]"
  | .vDict _ => "dict"

/-- The id of a Job Descriptor: `str(kwargs.get("job_id", random.randint(1,
1000000)))`, where `rand` stands for the value the random draw produced. -/
def idString (jobId : Option Value) (rand : Nat) : String :=
  match jobId with
  | some v => pyStr v
  | none => pyStrNat rand

/-- A Job Descriptor as built by `job` and `job_on_request`. -/
structure JobDesc where
  id : String
  method : String
  uri : String
  params : Dict

/-- The generic capture path of `job`: save the `request` attribute of the
head, swap in a fresh `RequestCapture`, drive the undecorated body with all
original arguments on an isolated loop, build the descriptor from the capture
slot, and restore the original `request` attribute unconditionally
(`try`/`finally`). A body that made no transport call leaves the slot at
Python `None`, and `captured.get("params", ...)` then raises
`AttributeError`. The keyword arguments, `job_id` included, are forwarded
verbatim to the body. -/
def job (f : PyFunc) (kw : Dict) (rand : Nat) : M JobDesc := fun s =>
  let original := s.request
  match callPy f kw { s with request := .capture, slot := none } with
  | (.error e, s2) => (.error e, { s2 with request := original })
  | (.ok _, s2) =>
    match s2.slot with
    | none => (.error "AttributeError", { s2 with request := original })
    | some c =>
      (.ok { id := idString (lookupD kw "job_id") rand,
             method := c.method,
             uri := c.endpoint,
             params := mergeGroups (c.params.getD []) (c.data.getD [])
                         (c.json.getD []) },
       { s2 with request := original })

/-- Keyword arguments of a `request.job` call: the three parameter groups and
an optional explicit `job_id`. -/
structure ReqKwargs where
  params : Option Dict := none
  data : Option Dict := none
  json : Option Dict := none
  jobId : Option Value := none

/-- The direct-construction path used when the decorated operation is the
transport entry point itself: the descriptor is built from the supplied
method, endpoint and keyword groups, with no nested call and no capture. -/
def job_on_request (method : String) (endpoint : String) (kw : ReqKwargs)
    (rand : Nat) : JobDesc :=
  { id := idString kw.jobId rand,
    method := method,
    uri := endpoint,
    params := mergeGroups (kw.params.getD []) (kw.data.getD [])
                (kw.json.getD []) }

/-- An event loop as seen by the dispatcher: only whether it is running. -/
structure EventLoop where
  isRunning : Bool

/-- The loop the wrapper ends up with: `asyncio.get_event_loop()` when the
ambient context has one, else a freshly created (hence not running) loop. -/
def getOrCreateLoop : Option EventLoop → EventLoop
  | some l => l
  | none => { isRunning := false }

/-- Whether the call site already has a running event loop. -/
def hasRunningLoop : Option EventLoop → Bool
  | some l => l.isRunning
  | none => false

/-- What an invocation of the dual-mode wrapper hands back: a materialized
result, or a pending awaitable that resolves to the carried result. -/
inductive Outcome (α : Type) where
  | immediate (a : α)
  | awaitable (a : α)

/-- Driving an `Outcome` to its final value (awaiting, if pending). -/
def resolve {α : Type} : Outcome α → α
  | .immediate a => a
  | .awaitable a => a

/-- The per-call `wrapper` of `UNIVERSAL`: with a running loop it returns the
pending coroutine, otherwise it drives the coroutine on the obtained loop and
returns the materialized result. -/
def wrapper {α : Type} (ambient : Option EventLoop) (r : α) : Outcome α :=
  if (getOrCreateLoop ambient).isRunning then .awaitable r else .immediate r

/-- Which implementation backs the `job` attribute of a batchable wrapper. -/
inductive JobCapability where
  | generic (f : PyFunc)
  | direct

/-- An endpoint operation bound to its instance: the dual-mode call, and the
optional `job` attribute. -/
structure BoundOp where
  call : Option EventLoop → Dict → HeadState → Outcome (Except Err Resp × HeadState)
  job : Option JobCapability

/-- The `UNIVERSAL` decorator resolved through `Inner.__get__`: the bound
wrapper dispatches on the ambient loop, and only a `batchable=True`
declaration attaches a `job` attribute — the direct path when the decorated
function is `APIClient.request`, the generic capture path otherwise. -/
def UNIVERSAL (func : PyFunc) (qualname : String) (batchable : Bool := false) :
    BoundOp :=
  { call := fun ambient kw s => wrapper ambient (callPy func kw s),
    job := if batchable then
             some (if qualname = "APIClient.request" then .direct
                   else .generic func)
           else none }

/-- Attribute access `op.job`: `AttributeError` when the wrapper carries no
such attribute. -/
def getJob (b : BoundOp) : Except Err JobCapability :=
  match b.job with
  | some j => .ok j
  | none => .error "AttributeError"

/-- The exception classes caught by `RETRY`, plus everything else. -/
inductive Fault where
  | timeout
  | connectTimeout
  | readTimeout
  | networkError
  | other (e : String)

/-- The caught classes are exactly the transient transport faults. -/
def Fault.transient : Fault → Bool
  | .other _ => false
  | _ => true

/-- Whether an attempt outcome is a transient-fault failure. -/
def isTransientErr {α : Type} : Except Fault α → Bool
  | .error f => f.transient
  | .ok _ => false

/-- The fixed pause between retried attempts, in seconds. -/
def sleepInterval : ℚ := 0.5

/-- The retry loop: `count` guarded attempts that catch transient faults and
sleep between attempts, then one final unguarded attempt. `attempt i` is the
outcome of the i-th invocation of the wrapped operation; the second component
lists the sleeps performed. -/
def retryLoop {α : Type} (attempt : Nat → Except Fault α) :
    Nat → Nat → Except Fault α × List ℚ
  | 0, i => (attempt i, [])
  | n + 1, i =>
    match attempt i with
    | .ok a => (.ok a, [])
    | .error f =>
      if f.transient then
        ((retryLoop attempt n (i + 1)).1,
         sleepInterval :: (retryLoop attempt n (i + 1)).2)
      else (.error f, [])

/-- The `RETRY` decorator applied to an operation whose successive invocation
outcomes are `attempt`, with the configured attempt count (default 10). -/
def RETRY {α : Type} (attempt : Nat → Except Fault α) (count : Nat := 10) :
    Except Fault α × List ℚ :=
  retryLoop attempt count 0

/-- Body of `Antipublic.__Info.lines`: one GET to `/countLinesPlain` when
`plain` is truthy, else one GET to `/countLines`, returning the transport
result unchanged. -/
def linesFunc : PyFunc :=
  { params := [("plain", some (.vBool false))],
    run := fun b =>
      if (getv b "plain").truthy then
        callTransport { method := "GET", endpoint := "/countLinesPlain" }
      else
        callTransport { method := "GET", endpoint := "/countLines" } }

/-- Body of `Antipublic.__Info.version`. -/
def versionFunc : PyFunc :=
  { params := [],
    run := fun _ => callTransport { method := "GET", endpoint := "/version" } }

/-- Body of `Antipublic.__Account.access`. -/
def accessFunc : PyFunc :=
  { params := [],
    run := fun _ =>
      callTransport { method := "GET", endpoint := "/checkAccess" } }

/-- Body of `Antipublic.__Account.queries`. -/
def queriesFunc : PyFunc :=
  { params := [],
    run := fun _ =>
      callTransport { method := "GET", endpoint := "/availableQueries" } }

/-- Body of `Antipublic.check`: builds `json = {"lines": lines, "insert":
insert}` and POSTs it to `/checkLines`. -/
def checkFunc : PyFunc :=
  { params := [("lines", none), ("insert", some (.vBool false))],
    run := fun b =>
      callTransport { method := "POST", endpoint := "/checkLines",
                      json := some [("lines", getv b "lines"),
                                    ("insert", getv b "insert")] } }

/-- Body of `Antipublic.search`: `direction` and `token` default to the unset
sentinel and go into the JSON group as such. -/
def searchFunc : PyFunc :=
  { params := [("searchBy", none), ("query", none),
               ("direction", some .NONE), ("token", some .NONE)],
    run := fun b =>
      callTransport { method := "POST", endpoint := "/search",
                      json := some [("searchBy", getv b "searchBy"),
                                    ("query", getv b "query"),
                                    ("direction", getv b "direction"),
                                    ("pageToken", getv b "token")] } }

/-- Body of `Antipublic.passwords`: `limit` defaults to the unset sentinel. -/
def passwordsFunc : PyFunc :=
  { params := [("emails", none), ("limit", some .NONE)],
    run := fun b =>
      callTransport { method := "POST", endpoint := "/emailPasswords",
                      json := some [("emails", getv b "emails"),
                                    ("limit", getv b "limit")] } }

/-- The bound operation `antipublic.info.lines` (declared `@UNIVERSAL()`). -/
def Antipublic.Info.lines : BoundOp :=
  UNIVERSAL linesFunc "Antipublic.__Info.lines"

/-- The bound operation `antipublic.info.version` (declared `@UNIVERSAL()`). -/
def Antipublic.Info.version : BoundOp :=
  UNIVERSAL versionFunc "Antipublic.__Info.version"

/-- The bound operation `antipublic.account.access` (declared `@UNIVERSAL()`). -/
def Antipublic.Account.access : BoundOp :=
  UNIVERSAL accessFunc "Antipublic.__Account.access"

/-- The bound operation `antipublic.account.queries` (declared `@UNIVERSAL()`). -/
def Antipublic.Account.queries : BoundOp :=
  UNIVERSAL queriesFunc "Antipublic.__Account.queries"

/-- The bound operation `antipublic.check` (declared `@UNIVERSAL()`). -/
def Antipublic.check : BoundOp := UNIVERSAL checkFunc "Antipublic.check"

/-- The bound operation `antipublic.search` (declared `@UNIVERSAL()`). -/
def Antipublic.search : BoundOp := UNIVERSAL searchFunc "Antipublic.search"

/-- The bound operation `antipublic.passwords` (declared `@UNIVERSAL()`). -/
def Antipublic.passwords : BoundOp :=
  UNIVERSAL passwordsFunc "Antipublic.passwords"

/-- Interpretation of a bound keyword group for the transport entry point:
a supplied dictionary, or nothing when left at the unset default. -/
def toGroup : Value → Option Dict
  | .vDict d => some d
  | _ => none

/-- Modelled from the spec: the body of `APIClient.request` lives in
`Base/Core.py`, which is not part of the sources. Per the spec it is the
asynchronous transport entry point `request(method, endpoint, params?, data?,
json?) -> Response`, performing the network call with the supplied groups. -/
def requestFunc : PyFunc :=
  { params := [("method", none), ("endpoint", none), ("params", some .NONE),
               ("data", some .NONE), ("json", some .NONE)],
    run := fun b =>
      callTransport { method := pyStr (getv b "method"),
                      endpoint := pyStr (getv b "endpoint"),
                      params := toGroup (getv b "params"),
                      data := toGroup (getv b "data"),
                      json := toGroup (getv b "json") } }

/-- Modelled from the spec: `APIClient.request` is decorated batchable in
`Base/Core.py`; the qualname dispatch in `Inner.__get__` then backs its `job`
attribute with the direct-construction path. -/
def APIClient.request : BoundOp := UNIVERSAL requestFunc "APIClient.request" true

/-- A hypothetical operation body that makes no transport call at all and
returns Python `None`. -/
def zeroCallBody : PyFunc := { params := [], run := fun _ s => (.ok .rNone, s) }

/-- First transport call of the two-call body. -/
def reqA : Request := { method := "GET", endpoint := "/first" }

/-- Second transport call of the two-call body. -/
def reqB : Request := { method := "GET", endpoint := "/second" }

/-- A hypothetical operation body that makes two transport calls in a row and
returns the second result. -/
def twoCallBody : PyFunc :=
  { params := [], run := fun _ s => callTransport reqB (callTransport reqA s).2 }

/-- A head instance at rest: real transport in place, no capture pending. -/
def realState : HeadState := { request := .real, slot := none, netCalls := [] }

/-- The head instance as the capture path prepares it. -/
def captureState : HeadState :=
  { request := .capture, slot := none, netCalls := [] }

/-- An attempt sequence whose first invocation hits a timeout and whose
second succeeds, used to exercise the retry policy on concrete data. -/
def attemptExample : Nat → Except Fault Nat :=
  fun i => if i = 0 then .error .timeout else .ok 5

/-- The keyword arguments of the end-to-end check example. -/
def kwCheck : Dict :=
  [("lines", .vList [.vStr "a:b", .vStr "c:d"]), ("insert", .vBool true)]

/-- The same call with an explicit `job_id` keyword added. -/
def kwCheckJobId : Dict := kwCheck ++ [("job_id", .vStr "7")]

/-- Concrete query-parameter group for merge-precedence checks. -/
def pEx : Dict := [("a", .vInt 1), ("b", .vInt 2)]

/-- Concrete form-data group for merge-precedence checks. -/
def dEx : Dict := [("b", .vInt 3), ("c", .vInt 4)]

/-- Concrete JSON group for merge-precedence checks. -/
def jEx : Dict := [("c", .vInt 5), ("u", .NONE)]

/-- A concrete already-stripped mapping for the idempotence check. -/
def mEx : Dict := [("x", .vInt 1), ("y", .vStr "s")]


/-- Shorthand constructor for a transport invocation carrying only a JSON
group (the shape every Antipublic body produces). -/
def mkReq (m e : String) (j : Option Dict) : Request :=
  { method := m, endpoint := e, json := j }

theorem lookupD_cons (k1 k : String) (v : Value) (tl : Dict) :
    lookupD ((k1, v) :: tl) k = if k1 = k then some v else lookupD tl k := rfl

theorem lookupD_append (a b : Dict) (k : String) :
    lookupD (a ++ b) k =
      match lookupD a k with
      | some v => some v
      | none => lookupD b k := by
  induction a with
  | nil => rfl
  | cons hd tl ih =>
    obtain ⟨k1, v1⟩ := hd
    rw [List.cons_append, lookupD_cons, lookupD_cons]
    by_cases h : k1 = k
    · rw [if_pos h, if_pos h]
    · rw [if_neg h, if_neg h, ih]

theorem lookupD_map_overwrite_ne (d : Dict) (k1 k : String) (v : Value)
    (h : k1 ≠ k) :
    lookupD (d.map (fun p => if p.1 = k1 then (k1, v) else p)) k =
      lookupD d k := by
  induction d with
  | nil => rfl
  | cons hd tl ih =>
    obtain ⟨k2, v2⟩ := hd
    rw [List.map_cons]
    by_cases h2 : k2 = k1
    · have e1 : (if ((k2, v2) : String × Value).1 = k1 then (k1, v) else (k2, v2))
          = (k1, v) := by
        simp [h2]
      rw [e1, lookupD_cons, lookupD_cons, if_neg h]
      have h3 : k2 ≠ k := by
        rw [h2]
        exact h
      rw [if_neg h3, ih]
    · have e1 : (if ((k2, v2) : String × Value).1 = k1 then (k1, v) else (k2, v2))
          = (k2, v2) := by
        simp [h2]
      rw [e1, lookupD_cons, lookupD_cons]
      by_cases h3 : k2 = k
      · rw [if_pos h3, if_pos h3]
      · rw [if_neg h3, if_neg h3, ih]

theorem lookupD_any_false (d : Dict) (k : String)
    (h : d.any (fun p => p.1 = k) = false) : lookupD d k = none := by
  induction d with
  | nil => rfl
  | cons hd tl ih =>
    obtain ⟨k1, v1⟩ := hd
    simp only [List.any_cons, Bool.or_eq_false_iff] at h
    have h1 : k1 ≠ k := by
      intro hk
      simp [hk] at h
    rw [lookupD_cons, if_neg h1]
    exact ih h.2

theorem lookupD_map_overwrite_self (d : Dict) (k : String) (v : Value)
    (h : d.any (fun p => p.1 = k) = true) :
    lookupD (d.map (fun p => if p.1 = k then (k, v) else p)) k = some v := by
  induction d with
  | nil => simp at h
  | cons hd tl ih =>
    obtain ⟨k1, v1⟩ := hd
    rw [List.map_cons]
    by_cases h1 : k1 = k
    · have e1 : (if ((k1, v1) : String × Value).1 = k then (k, v) else (k1, v1))
          = (k, v) := by
        simp [h1]
      rw [e1, lookupD_cons, if_pos rfl]
    · have e1 : (if ((k1, v1) : String × Value).1 = k then (k, v) else (k1, v1))
          = (k1, v1) := by
        simp [h1]
      rw [e1, lookupD_cons, if_neg h1]
      apply ih
      simp only [List.any_cons] at h
      simpa [h1] using h

theorem lookupD_setKey_self (d : Dict) (k : String) (v : Value) :
    lookupD (setKey d k v) k = some v := by
  unfold setKey
  by_cases h : d.any (fun p => p.1 = k) = true
  · rw [if_pos h]
    exact lookupD_map_overwrite_self d k v h
  · simp only [Bool.not_eq_true] at h
    rw [if_neg (by simp [h])]
    rw [lookupD_append, lookupD_any_false d k h]
    show lookupD [(k, v)] k = some v
    rw [lookupD_cons, if_pos rfl]

theorem lookupD_setKey_ne (d : Dict) (k1 k : String) (v : Value)
    (h : k1 ≠ k) : lookupD (setKey d k1 v) k = lookupD d k := by
  unfold setKey
  by_cases h2 : d.any (fun p => p.1 = k1) = true
  · rw [if_pos h2]
    exact lookupD_map_overwrite_ne d k1 k v h
  · simp only [Bool.not_eq_true] at h2
    rw [if_neg (by simp [h2])]
    rw [lookupD_append]
    cases hl : lookupD d k with
    | some w => rfl
    | none =>
      show lookupD [(k1, v)] k = none
      rw [lookupD_cons, if_neg h]
      rfl

theorem update_cons (d : Dict) (k : String) (v : Value) (e : Dict) :
    Dict.update d ((k, v) :: e) = Dict.update (setKey d k v) e := rfl

theorem lookupD_update_of_none (d e : Dict) (k : String)
    (h : lookupD e k = none) : lookupD (Dict.update d e) k = lookupD d k := by
  induction e generalizing d with
  | nil => rfl
  | cons hd tl ih =>
    obtain ⟨k1, v1⟩ := hd
    rw [lookupD_cons] at h
    by_cases h1 : k1 = k
    · rw [if_pos h1] at h
      exact absurd h (by simp)
    · rw [if_neg h1] at h
      rw [update_cons, ih _ h, lookupD_setKey_ne _ _ _ _ h1]

theorem lookupD_eq_none_of_not_mem_keys (d : Dict) (k : String)
    (h : k ∉ keysD d) : lookupD d k = none := by
  induction d with
  | nil => rfl
  | cons hd tl ih =>
    obtain ⟨k1, v1⟩ := hd
    simp only [keysD, List.map_cons, List.mem_cons] at h
    push_neg at h
    rw [lookupD_cons, if_neg (Ne.symm h.1)]
    exact ih (by simpa [keysD] using h.2)

theorem lookupD_update_of_some (d e : Dict) (k : String) (v : Value)
    (hn : NodupKeys e) (h : lookupD e k = some v) :
    lookupD (Dict.update d e) k = some v := by
  induction e generalizing d with
  | nil => simp [lookupD] at h
  | cons hd tl ih =>
    obtain ⟨k1, v1⟩ := hd
    have hn' : (keysD tl).Nodup ∧ k1 ∉ keysD tl := by
      have := hn
      simp only [NodupKeys, keysD, List.map_cons, List.nodup_cons] at this
      exact ⟨this.2, this.1⟩
    rw [lookupD_cons] at h
    by_cases h1 : k1 = k
    · rw [if_pos h1] at h
      have hv : v1 = v := by
        injection h
      subst hv
      subst h1
      rw [update_cons]
      have htl : lookupD tl k1 = none :=
        lookupD_eq_none_of_not_mem_keys tl k1 hn'.2
      rw [lookupD_update_of_none _ _ _ htl, lookupD_setKey_self]
    · rw [if_neg h1] at h
      rw [update_cons]
      exact ih (setKey d k1 v1) hn'.1 h

theorem lookupD_TrimNONE_of_none (d : Dict) (k : String)
    (h : lookupD d k = none) : lookupD (TrimNONE d) k = none := by
  induction d with
  | nil => rfl
  | cons hd tl ih =>
    obtain ⟨k1, v1⟩ := hd
    rw [lookupD_cons] at h
    by_cases h1 : k1 = k
    · rw [if_pos h1] at h
      exact absurd h (by simp)
    · rw [if_neg h1] at h
      show lookupD (List.filter _ ((k1, v1) :: tl)) k = none
      rw [List.filter_cons]
      by_cases h2 : (!v1.isNONE) = true
      · simp only [h2, if_true]
        rw [lookupD_cons, if_neg h1]
        exact ih h
      · simp only [h2, if_false]
        exact ih h

theorem lookupD_TrimNONE_of_some (d : Dict) (k : String) (v : Value)
    (h : lookupD d k = some v) (hv : v.isNONE = false) :
    lookupD (TrimNONE d) k = some v := by
  induction d with
  | nil => simp [lookupD] at h
  | cons hd tl ih =>
    obtain ⟨k1, v1⟩ := hd
    rw [lookupD_cons] at h
    show lookupD (List.filter _ ((k1, v1) :: tl)) k = some v
    rw [List.filter_cons]
    by_cases h1 : k1 = k
    · rw [if_pos h1] at h
      have hv1 : v1 = v := by
        injection h
      subst hv1
      simp only [hv, Bool.not_false, if_true]
      rw [lookupD_cons, if_pos h1]
    · rw [if_neg h1] at h
      by_cases h2 : (!v1.isNONE) = true
      · simp only [h2, if_true]
        rw [lookupD_cons, if_neg h1]
        exact ih h
      · simp only [h2, if_false]
        exact ih h

theorem NodupKeys_TrimNONE (d : Dict) (h : NodupKeys d) :
    NodupKeys (TrimNONE d) := by
  have hsub : List.Sublist (keysD (TrimNONE d)) (keysD d) :=
    (List.filter_sublist d).map Prod.fst
  exact List.Nodup.sublist hsub h

theorem lookupD_eq_of_mem (m : Dict) (k : String) (v : Value)
    (hn : NodupKeys m) (h : (k, v) ∈ m) : lookupD m k = some v := by
  induction m with
  | nil => simp at h
  | cons hd tl ih =>
    obtain ⟨k1, v1⟩ := hd
    have hn' : (keysD tl).Nodup ∧ k1 ∉ keysD tl := by
      have := hn
      simp only [NodupKeys, keysD, List.map_cons, List.nodup_cons] at this
      exact ⟨this.2, this.1⟩
    rcases List.mem_cons.mp h with h0 | h0
    · have hk : k1 = k := by
        have := congrArg Prod.fst h0
        exact this.symm
      have hv : v1 = v := by
        have := congrArg Prod.snd h0
        exact this.symm
      subst hk
      subst hv
      rw [lookupD_cons, if_pos rfl]
    · have hk : k1 ≠ k := by
        intro he
        subst he
        exact hn'.2 (by simpa [keysD] using List.mem_map_of_mem Prod.fst h0)
      rw [lookupD_cons, if_neg hk]
      exact ih hn'.1 h0

theorem setKey_eq_self (m : Dict) (k : String) (v : Value)
    (hn : NodupKeys m) (h : (k, v) ∈ m) : setKey m k v = m := by
  unfold setKey
  have hany : m.any (fun p => p.1 = k) = true := by
    rw [List.any_eq_true]
    exact ⟨(k, v), h, by simp⟩
  rw [if_pos hany]
  have hid : ∀ p ∈ m, (if p.1 = k then (k, v) else p) = p := by
    intro p hp
    by_cases hpk : p.1 = k
    · rw [if_pos hpk]
      have h1 : lookupD m k = some v := lookupD_eq_of_mem m k v hn h
      have h2 : lookupD m k = some p.2 := by
        apply lookupD_eq_of_mem m k p.2 hn
        have : (p.1, p.2) ∈ m := by
          simpa using hp
        rwa [hpk] at this
      have hv : v = p.2 := by
        rw [h1] at h2
        injection h2
      rw [hv, ← hpk]
    · rw [if_neg hpk]
  calc m.map (fun p => if p.1 = k then (k, v) else p)
      = m.map id := List.map_congr_left hid
    _ = m := List.map_id m

theorem update_of_subset (m e : Dict) (hn : NodupKeys m)
    (h : ∀ p ∈ e, p ∈ m) : Dict.update m e = m := by
  induction e with
  | nil => rfl
  | cons hd tl ih =>
    obtain ⟨k1, v1⟩ := hd
    rw [update_cons, setKey_eq_self m k1 v1 hn (h (k1, v1) (List.mem_cons_self _ _))]
    exact ih (fun p hp => h p (List.mem_cons_of_mem _ hp))

theorem natAux_decDigits_lt (fuel n : Nat) :
    ∀ d ∈ decDigits fuel n, d < 10 := by
  induction fuel generalizing n with
  | zero => simp [decDigits]
  | succ f ih =>
    intro d hd
    rw [decDigits] at hd
    by_cases h : n = 0
    · rw [if_pos h] at hd
      simp at hd
    · rw [if_neg h] at hd
      rcases List.mem_cons.mp hd with h0 | h0
      · rw [h0]
        exact Nat.mod_lt n (by omega)
      · exact ih (n / 10) d h0

theorem decChar_decode : ∀ d < 10, (decChar d).toNat - 48 = d := by decide

theorem valDigits_decDigits (fuel : Nat) : ∀ n, n ≤ fuel →
    (decDigits fuel n).foldr (fun d acc => acc * 10 + d) 0 = n := by
  induction fuel with
  | zero =>
    intro n h
    have h0 : n = 0 := Nat.le_zero.mp h
    subst h0
    rfl
  | succ f ih =>
    intro n h
    rw [decDigits]
    by_cases h0 : n = 0
    · rw [if_pos h0]
      rw [h0]
      rfl
    · rw [if_neg h0]
      rw [List.foldr_cons]
      have hlt : n / 10 < n := Nat.div_lt_self (Nat.pos_of_ne_zero h0) (by norm_num)
      rw [ih (n / 10) (by omega)]
      omega

theorem foldr_decChar (ds : List Nat) (h : ∀ d ∈ ds, d < 10) :
    ds.foldr (fun x y => y * 10 + ((decChar x).toNat - 48)) 0 =
      ds.foldr (fun x y => y * 10 + x) 0 := by
  induction ds with
  | nil => rfl
  | cons d tl ih =>
    rw [List.foldr_cons, List.foldr_cons]
    rw [decChar_decode d (h d (List.mem_cons_self _ _))]
    rw [ih (fun x hx => h x (List.mem_cons_of_mem _ hx))]

theorem strToNat_pyStrNat (n : Nat) : strToNat (pyStrNat n) = n := by
  unfold pyStrNat
  by_cases h0 : n = 0
  · rw [if_pos h0, h0]
    rfl
  · rw [if_neg h0]
    show ((decDigits n n).reverse.map decChar).foldl
        (fun acc c => acc * 10 + (c.toNat - 48)) 0 = n
    rw [List.foldl_map, List.foldl_reverse]
    rw [foldr_decChar _ (natAux_decDigits_lt n n)]
    exact valDigits_decDigits n n le_rfl

theorem pyStrNat_injective (a b : Nat) (h : pyStrNat a = pyStrNat b) : a = b := by
  have ha := strToNat_pyStrNat a
  have hb := strToNat_pyStrNat b
  rw [h] at ha
  rw [hb] at ha
  exact ha.symm

theorem retryLoop_characterization {α : Type} (attempt : Nat → Except Fault α) :
    ∀ (n i k : Nat), k ≤ n →
    (∀ d, d < k → isTransientErr (attempt (i + d)) = true) →
    (k < n → isTransientErr (attempt (i + k)) = false) →
    retryLoop attempt n i = (attempt (i + k), List.replicate k sleepInterval) := by
  intro n
  induction n with
  | zero =>
    intro i k hk _ _
    have h0 : k = 0 := Nat.le_zero.mp hk
    subst h0
    rfl
  | succ m ih =>
    intro i k hk hprev hstop
    cases k with
    | zero =>
      have hs : isTransientErr (attempt i) = false := by
        simpa using hstop (Nat.succ_pos m)
      rw [retryLoop]
      cases hatt : attempt i with
      | ok a =>
        simp [hatt]
      | error f =>
        rw [hatt] at hs
        simp only [isTransientErr] at hs
        simp [hatt, hs]
    | succ k' =>
      have h0 : isTransientErr (attempt i) = true := by
        simpa using hprev 0 (Nat.succ_pos k')
      cases hatt : attempt i with
      | ok a =>
        rw [hatt] at h0
        simp [isTransientErr] at h0
      | error f =>
        rw [hatt] at h0
        simp only [isTransientErr] at h0
        have hrec := ih (i + 1) k' (Nat.lt_succ_iff.mp hk)
          (fun d hd => by
            have := hprev (d + 1) (by omega)
            simpa [Nat.add_assoc, Nat.add_comm 1 d] using this)
          (fun hlt => by
            have := hstop (by omega)
            simpa [Nat.add_assoc, Nat.add_comm 1 k'] using this)
        rw [retryLoop]
        simp only [hatt, h0, if_true]
        rw [hrec]
        have harith : i + 1 + k' = i + (k' + 1) := by omega
        rw [harith]
        rfl

/-- C1: for every operation decorated with UNIVERSAL, invoking the bound
wrapper from a call site with no running event loop returns the materialized
result of the wrapped coroutine, never a pending computation; invoking it
while an event loop is already running returns an awaitable that the caller
must drive, and that awaitable resolves to the same result. -/
theorem universal_dual_mode_dispatch (func : PyFunc) (qualname : String)
    (batchable : Bool) (ambient : Option EventLoop) (kw : Dict) (s : HeadState) :
    (hasRunningLoop ambient = false →
      (UNIVERSAL func qualname batchable).call ambient kw s =
        .immediate (callPy func kw s)) ∧
    (hasRunningLoop ambient = true →
      (UNIVERSAL func qualname batchable).call ambient kw s =
        .awaitable (callPy func kw s) ∧
      resolve ((UNIVERSAL func qualname batchable).call ambient kw s) =
        callPy func kw s) := by
  constructor
  · intro h
    cases ambient with
    | none => rfl
    | some l =>
      simp only [hasRunningLoop] at h
      show wrapper (some l) (callPy func kw s) = _
      unfold wrapper
      show (if l.isRunning = true then _ else _) = _
      rw [h]
      simp
  · intro h
    cases ambient with
    | none => simp [hasRunningLoop] at h
    | some l =>
      simp only [hasRunningLoop] at h
      have e : (UNIVERSAL func qualname batchable).call (some l) kw s =
          (if l.isRunning = true then Outcome.awaitable (callPy func kw s)
           else Outcome.immediate (callPy func kw s)) := rfl
      rw [e, if_pos h]
      exact ⟨rfl, rfl⟩

/-- Witness for C1 at the version operation: a call site without a loop gets
the materialized result, a call site inside a running loop gets the
awaitable. -/
theorem universal_dual_mode_dispatch_witness :
    (UNIVERSAL versionFunc "Antipublic.__Info.version" false).call none []
        realState = .immediate (callPy versionFunc [] realState) ∧
    (UNIVERSAL versionFunc "Antipublic.__Info.version" false).call
        (some { isRunning := true }) [] realState =
      .awaitable (callPy versionFunc [] realState) :=
  ⟨(universal_dual_mode_dispatch versionFunc "Antipublic.__Info.version" false
      none [] realState).1 rfl,
   ((universal_dual_mode_dispatch versionFunc "Antipublic.__Info.version" false
      (some { isRunning := true }) [] realState).2 rfl).1⟩

/-- C2 counterexample: `check` is declared `@UNIVERSAL()` with the default
`batchable=False`, so its bound wrapper carries no `job` attribute at all and
the claimed `.job` invocation fails with `AttributeError` instead of
returning a descriptor. -/
theorem check_job_attribute_absent :
    Antipublic.check.job = none ∧
    getJob Antipublic.check = .error "AttributeError" := ⟨rfl, rfl⟩

/-- C2 amended: `check` is not batchable, so `.job` is unavailable on it; the
generic capture applied to the body of `check` with the arguments of the
example and no `job_id` keyword yields exactly the claimed descriptor with a
random id (draw 7 shown), while passing `job_id` into the capture raises
`TypeError`, because `job` forwards every keyword argument to the body and
`check` declares no `job_id` parameter. -/
theorem check_job_capture_descriptor :
    (job checkFunc kwCheck 7 realState).1 =
      .ok { id := "7", method := "POST", uri := "/checkLines",
            params := [("lines", .vList [.vStr "a:b", .vStr "c:d"]),
                       ("insert", .vBool true)] } ∧
    (job checkFunc kwCheckJobId 1 realState).1 = .error "TypeError" :=
  ⟨rfl, rfl⟩

/-- C3: in the Job Descriptor parameter merge, after stripping unset
sentinels, a key carried by the JSON group takes its JSON value no matter
what the query and form groups say, and a key absent from the JSON group but
carried by the form group takes its form value. Both the generic capture and
the direct construction build parameters through `mergeGroups`. -/
theorem mergeGroups_precedence (p d j : Dict) (k : String) :
    (∀ vj, NodupKeys j → lookupD j k = some vj → vj.isNONE = false →
      lookupD (mergeGroups p d j) k = some vj) ∧
    (∀ vd, lookupD j k = none → NodupKeys d → lookupD d k = some vd →
      vd.isNONE = false → lookupD (mergeGroups p d j) k = some vd) := by
  constructor
  · intro vj hnj hj hvj
    unfold mergeGroups
    exact lookupD_update_of_some _ _ _ _ (NodupKeys_TrimNONE j hnj)
      (lookupD_TrimNONE_of_some j k vj hj hvj)
  · intro vd hj hnd hd hvd
    unfold mergeGroups
    rw [lookupD_update_of_none _ _ _ (lookupD_TrimNONE_of_none j k hj)]
    unfold stripMerge
    exact lookupD_update_of_some _ _ _ _ (NodupKeys_TrimNONE d hnd)
      (lookupD_TrimNONE_of_some d k vd hd hvd)

/-- Witness for C3 on concrete groups: key c is in both form and JSON groups
and gets the JSON value, key b is in both query and form groups and gets the
form value. -/
theorem mergeGroups_precedence_witness :
    lookupD (mergeGroups pEx dEx jEx) "c" = some (.vInt 5) ∧
    lookupD (mergeGroups pEx dEx jEx) "b" = some (.vInt 3) :=
  ⟨(mergeGroups_precedence pEx dEx jEx "c").1 (.vInt 5)
      (by unfold NodupKeys keysD; decide) rfl rfl,
   (mergeGroups_precedence pEx dEx jEx "b").2 (.vInt 3) rfl
      (by unfold NodupKeys keysD; decide) rfl rfl⟩

/-- C4: whether the captured run completes normally or raises, `job` restores
the request attribute of the head instance to the original transport entry
point before returning or propagating, so a subsequent normal call reaches
the real transport. -/
theorem job_restores_transport (f : PyFunc) (kw : Dict) (rand : Nat)
    (s : HeadState) (r : Request) :
    (job f kw rand s).2.request = s.request ∧
    (s.request = .real →
      (callTransport r ((job f kw rand s).2)).1 = .ok (.rReal r)) := by
  have hmain : (job f kw rand s).2.request = s.request := by
    unfold job
    rcases hres : callPy f kw { s with request := .capture, slot := none }
      with ⟨res, s2⟩
    cases res with
    | error e => rfl
    | ok a =>
      obtain ⟨rq2, sl2, nc2⟩ := s2
      cases sl2 with
      | none => rfl
      | some c => rfl
  refine ⟨hmain, fun hreal => ?_⟩
  have e : (callTransport r ((job f kw rand s).2)).1 =
      (match ((job f kw rand s).2).request with
       | TransportRef.real => Except.ok (Resp.rReal r)
       | TransportRef.capture => Except.ok Resp.rNone) := by
    unfold callTransport
    cases ((job f kw rand s).2).request with
    | real => rfl
    | capture => rfl
  rw [e, hmain, hreal]

/-- Witness for C4: after a capture on the check body the head is back on the
real transport and a subsequent call reaches the network. -/
theorem job_restores_transport_witness :
    (job checkFunc kwCheck 1 realState).2.request = realState.request ∧
    (callTransport reqA ((job checkFunc kwCheck 1 realState).2)).1 =
      .ok (.rReal reqA) :=
  ⟨(job_restores_transport checkFunc kwCheck 1 realState reqA).1,
   (job_restores_transport checkFunc kwCheck 1 realState reqA).2 rfl⟩

/-- C5: the only batchable operation is the transport entry point, whose
`job` is the direct-construction path; supplying a `job_id` keyword makes the
descriptor id exactly the supplied string, and omitting it yields the decimal
string of the positive random draw, so two calls with different draws yield
different ids. -/
theorem job_id_behaviour (method endpoint : String) (kw : ReqKwargs)
    (rand rand2 : Nat) (s1 : String) :
    getJob APIClient.request = .ok .direct ∧
    (job_on_request method endpoint { kw with jobId := some (.vStr s1) }
        rand).id = s1 ∧
    (kw.jobId = none → 1 ≤ rand → rand ≤ 1000000 →
      (job_on_request method endpoint kw rand).id = pyStrNat rand ∧
      strToNat (job_on_request method endpoint kw rand).id = rand ∧
      (rand ≠ rand2 →
        (job_on_request method endpoint kw rand).id ≠
          (job_on_request method endpoint kw rand2).id)) := by
  refine ⟨rfl, rfl, fun hnone h1 h2 => ?_⟩
  have hid : ∀ r : Nat, (job_on_request method endpoint kw r).id = pyStrNat r := by
    intro r
    show idString kw.jobId r = pyStrNat r
    rw [hnone]
    rfl
  refine ⟨hid rand, ?_, fun hne => ?_⟩
  · rw [hid rand]
    exact strToNat_pyStrNat rand
  · rw [hid rand, hid rand2]
    intro he
    exact hne (pyStrNat_injective rand rand2 he)

/-- Witness for C5: explicit id 7 is kept verbatim; draws 7 and 8 give the
ids 7 and 8, which differ. -/
theorem job_id_behaviour_witness :
    getJob APIClient.request = .ok .direct ∧
    (job_on_request "GET" "/countLines" { jobId := some (.vStr "7") } 3).id
      = "7" ∧
    (job_on_request "GET" "/countLines" {} 7).id = pyStrNat 7 ∧
    (job_on_request "GET" "/countLines" {} 7).id ≠
      (job_on_request "GET" "/countLines" {} 8).id :=
  ⟨(job_id_behaviour "GET" "/countLines" {} 7 8 "7").1,
   (job_id_behaviour "GET" "/countLines" {} 3 8 "7").2.1,
   ((job_id_behaviour "GET" "/countLines" {} 7 8 "7").2.2 rfl (by decide)
     (by decide)).1,
   ((job_id_behaviour "GET" "/countLines" {} 7 8 "7").2.2 rfl (by decide)
     (by decide)).2.2 (by decide)⟩

/-- C6 counterexample: when the driven body makes zero transport calls, the
generic capture does not return an invalid or absent descriptor; the capture
slot is still Python None and dereferencing it raises AttributeError. -/
theorem job_zero_calls_raises :
    (job zeroCallBody [] 1 realState).1 = .error "AttributeError" := rfl

/-- C6 amended: with multiple transport calls `job` raises nothing and builds
the descriptor from the last captured call, earlier calls silently lost; with
zero transport calls it raises AttributeError (rather than returning a
descriptor), after restoring the transport entry point. -/
theorem job_capture_inconsistency :
    (job twoCallBody [] 5 realState).1 =
      .ok { id := "5", method := "GET", uri := "/second", params := [] } ∧
    (job zeroCallBody [] 1 realState).1 = .error "AttributeError" ∧
    (job zeroCallBody [] 1 realState).2.request = .real ∧
    (job twoCallBody [] 5 realState).2.request = .real :=
  ⟨rfl, rfl, rfl, rfl⟩

/-- C7: the recording stub performs no network I/O, records method, endpoint
and keyword groups into the capture slot and returns an empty result; every
Antipublic endpoint body, driven against the stub with its own arguments and
no job underscore id keyword, completes without raising. -/
theorem capture_stub_runs_bodies :
    (∀ (r : Request) (s : HeadState), s.request = .capture →
      callTransport r s = (.ok .rNone, { s with slot := some r })) ∧
    (∀ lines insert : Value,
      callPy checkFunc [("lines", lines), ("insert", insert)] captureState =
        (.ok .rNone, { captureState with slot := some (mkReq "POST"
          "/checkLines" (some [("lines", lines), ("insert", insert)])) })) ∧
    (∀ plain : Value,
      callPy linesFunc [("plain", plain)] captureState =
        (.ok .rNone, { captureState with slot := some (if plain.truthy then
          mkReq "GET" "/countLinesPlain" none
          else mkReq "GET" "/countLines" none) })) ∧
    (callPy versionFunc [] captureState =
      (.ok .rNone, { captureState with
        slot := some (mkReq "GET" "/version" none) })) ∧
    (callPy accessFunc [] captureState =
      (.ok .rNone, { captureState with
        slot := some (mkReq "GET" "/checkAccess" none) })) ∧
    (callPy queriesFunc [] captureState =
      (.ok .rNone, { captureState with
        slot := some (mkReq "GET" "/availableQueries" none) })) ∧
    (∀ sb q dir tok : Value,
      callPy searchFunc [("searchBy", sb), ("query", q), ("direction", dir),
          ("token", tok)] captureState =
        (.ok .rNone, { captureState with slot := some (mkReq "POST" "/search"
          (some [("searchBy", sb), ("query", q), ("direction", dir),
                 ("pageToken", tok)])) })) ∧
    (∀ emails lim : Value,
      callPy passwordsFunc [("emails", emails), ("limit", lim)] captureState =
        (.ok .rNone, { captureState with slot := some (mkReq "POST"
          "/emailPasswords" (some [("emails", emails), ("limit", lim)])) })) := by
  refine ⟨?_, fun lines insert => rfl, fun plain => ?_, rfl, rfl, rfl,
    fun sb q dir tok => rfl, fun emails lim => rfl⟩
  · intro r s h
    obtain ⟨rq, sl, nc⟩ := s
    simp only at h
    subst h
    rfl
  · have e1 : callPy linesFunc [("plain", plain)] captureState =
        (if Value.truthy plain = true then
          callTransport (mkReq "GET" "/countLinesPlain" none)
         else callTransport (mkReq "GET" "/countLines" none))
          captureState := rfl
    cases h : Value.truthy plain
    · rw [e1, h]
      rfl
    · rw [e1, h]
      rfl

/-- Witness for C7: the stub fact applied at a concrete capture-mode state. -/
theorem capture_stub_runs_bodies_witness :
    callTransport reqA captureState =
      (.ok .rNone, { captureState with slot := some reqA }) :=
  capture_stub_runs_bodies.1 reqA captureState rfl

/-- C8: RETRY re-invokes the wrapped operation while it fails with one of
the transient transport faults (timeout, connect timeout, read timeout,
network error), sleeping the fixed interval between attempts; any other
exception propagates immediately on first occurrence, and after the guarded
attempts are exhausted one final unguarded attempt is returned or propagated
as-is. The outcome equals the first non-transient attempt, with one sleep per
transient failure before it. -/
theorem retry_policy {α : Type} (attempt : Nat → Except Fault α)
    (count k : Nat) (hk : k ≤ count)
    (hprev : ∀ d, d < k → isTransientErr (attempt d) = true)
    (hstop : k < count → isTransientErr (attempt k) = false) :
    (Fault.transient .timeout = true ∧ Fault.transient .connectTimeout = true ∧
     Fault.transient .readTimeout = true ∧
     Fault.transient .networkError = true ∧
     (∀ e, Fault.transient (.other e) = false) ∧ sleepInterval = 0.5) ∧
    RETRY attempt count = (attempt k, List.replicate k sleepInterval) := by
  refine ⟨⟨rfl, rfl, rfl, rfl, fun e => rfl, rfl⟩, ?_⟩
  have h := retryLoop_characterization attempt count 0 k hk
    (fun d hd => by simpa using hprev d hd)
    (fun hlt => by simpa using hstop hlt)
  simpa [RETRY] using h

/-- Witness for C8: the first attempt times out, the second succeeds; RETRY
returns the success after exactly one sleep. -/
theorem retry_policy_witness :
    RETRY attemptExample 10 = (.ok 5, List.replicate 1 sleepInterval) :=
  (retry_policy attemptExample 10 1 (by decide) (by decide) (by decide)).2

/-- C9: the unset-stripping merge is idempotent: merging a mapping that is
already stripped of unset entries with itself yields the mapping itself. -/
theorem stripMerge_idempotent (m : Dict) (hn : NodupKeys m)
    (hstripped : TrimNONE m = m) : stripMerge m m = m := by
  unfold stripMerge
  rw [hstripped]
  exact update_of_subset m m hn (fun p hp => hp)

/-- Witness for C9 on a concrete stripped mapping. -/
theorem stripMerge_idempotent_witness : stripMerge mEx mEx = mEx :=
  stripMerge_idempotent mEx (by unfold NodupKeys keysD; decide) rfl

/-- C10: every Antipublic endpoint operation is declared with `UNIVERSAL()`
at its default `batchable=False`, so none of the bound operations carries the
`job` attribute and accessing it raises AttributeError. -/
theorem antipublic_operations_not_batchable :
    (Antipublic.Info.lines.job = none ∧
      getJob Antipublic.Info.lines = .error "AttributeError") ∧
    (Antipublic.Info.version.job = none ∧
      getJob Antipublic.Info.version = .error "AttributeError") ∧
    (Antipublic.Account.access.job = none ∧
      getJob Antipublic.Account.access = .error "AttributeError") ∧
    (Antipublic.Account.queries.job = none ∧
      getJob Antipublic.Account.queries = .error "AttributeError") ∧
    (Antipublic.check.job = none ∧
      getJob Antipublic.check = .error "AttributeError") ∧
    (Antipublic.search.job = none ∧
      getJob Antipublic.search = .error "AttributeError") ∧
    (Antipublic.passwords.job = none ∧
      getJob Antipublic.passwords = .error "AttributeError") :=
  ⟨⟨rfl, rfl⟩, ⟨rfl, rfl⟩, ⟨rfl, rfl⟩, ⟨rfl, rfl⟩, ⟨rfl, rfl⟩, ⟨rfl, rfl⟩,
   ⟨rfl, rfl⟩⟩
